import Mathlib

/-!
Shallow embedding of the document-to-summary pipeline of the
summarization-agent repository (src/ai_summarization/agent.py,
src/ai_summarization/assistant_profiles.py, src/report_generator/generator.py),
together with proofs settling the specification claims about it.

External effects (the PyMuPDF decoder, the filesystem, SQLite, the OpenAI
client) are modelled as explicit inputs: each external call's result is a
field of an environment record, and the embedded functions are pure functions
of that environment, mirroring the Python control flow statement by statement.
-/

namespace SummarizationPipeline

/-- Raw byte strings (Python `bytes`) are modelled as lists of naturals. -/
abbrev Bytes := List Nat

/-! ## Visual Extraction (SummarizationAgent.extract_images_from_pdf)

One embedded image as PyMuPDF yields it to the extraction loop, together
with the outcome of the external effects touching it:
`extractOk` models `doc.extract_image(xref)` returning a usable (truthy)
dict without raising — both the falsy result and a raised exception make
the loop skip just this image; `saveOk` models the `open/write` of the
image bytes into the scratch directory succeeding; `suffix` is the random
`uuid4().hex[:6]` filename suffix drawn for this image. -/
structure RawImage where
  extractOk : Bool
  width : Nat
  height : Nat
  ext : String
  image : Bytes
  saveOk : Bool
  suffix : String
deriving Repr, DecidableEq

/-- The dict appended to `images` for an accepted image. The `base64` field
holds the base64 payload of the raw bytes; base64 encoding is injective and
content-preserving, so it is modelled as the byte content itself. The SHA-256
fingerprint is modelled by an arbitrary fingerprint function `hashFn`
passed to the extraction (identical byte sequences therefore always receive
the identical fingerprint). -/
structure ExtractedImage where
  page : Nat
  index : Nat
  format : String
  width : Nat
  height : Nat
  base64 : Bytes
  filepath : Option String
  hash : Nat
deriving Repr, DecidableEq

/-- `f"{pdf_basename}_p{page_num}_img{img_index}_{unique_suffix}.{img_format}"` -/
def imageFilename (basename : String) (page idx : Nat) (suffix ext : String) : String :=
  basename ++ "_p" ++ toString page ++ "_img" ++ toString idx ++ "_" ++ suffix ++ "." ++ ext

/-- The body of the inner loop of `extract_images_from_pdf` for one embedded
image: skip on extraction failure; skip when width and height are both ≤ 100;
fingerprint the bytes and, when the SQLite connection is available (`connOk`),
skip an already-recorded fingerprint and otherwise insert it (the store is the
list of recorded fingerprints, in insertion order); persist to the scratch
directory (`filepath := none` when the write fails) and append the record.
Returns the appended record (if any) and the updated store. -/
def processImage (hashFn : Bytes → Nat) (connOk : Bool) (basename : String)
    (page idx : Nat) (img : RawImage) (store : List Nat) :
    Option ExtractedImage × List Nat :=
  if img.extractOk = false then (none, store)
  else if img.width ≤ 100 ∧ img.height ≤ 100 then (none, store)
  else
    let h := hashFn img.image
    if connOk = true ∧ h ∈ store then (none, store)
    else
      let store' := if connOk = true then store ++ [h] else store
      let path : Option String :=
        if img.saveOk = true then
          some (imageFilename basename page idx img.suffix img.ext)
        else none
      (some { page := page, index := idx, format := img.ext, width := img.width,
              height := img.height, base64 := img.image, filepath := path,
              hash := h }, store')

/-- The inner loop over `enumerate(page.get_images(full=True), start=1)`:
threads the fingerprint store left to right and appends accepted records in
in-page order. `idx` is the enumeration counter. -/
def processPageImages (hashFn : Bytes → Nat) (connOk : Bool) (basename : String)
    (page : Nat) : Nat → List RawImage → List Nat → List ExtractedImage × List Nat
  | _, [], store => ([], store)
  | idx, img :: rest, store =>
    let r := processImage hashFn connOk basename page idx img store
    let rest' := processPageImages hashFn connOk basename page (idx + 1) rest r.2
    (r.1.toList ++ rest'.1, rest'.2)

/-- The outer loop over `enumerate(doc, start=1)`: pages in order, threading
the fingerprint store. -/
def processPages (hashFn : Bytes → Nat) (connOk : Bool) (basename : String) :
    Nat → List (List RawImage) → List Nat → List ExtractedImage × List Nat
  | _, [], store => ([], store)
  | pageNum, pg :: rest, store =>
    let r := processPageImages hashFn connOk basename pageNum 1 pg store
    let rest' := processPages hashFn connOk basename (pageNum + 1) rest r.2
    (r.1 ++ rest'.1, rest'.2)

/-- `SummarizationAgent.extract_images_from_pdf`. A document is the page/image
structure PyMuPDF reads from the PDF. `docOk` models the document-level
external calls before the loop (`os.makedirs`, `fitz.open`) succeeding; when
one of them raises, the outer `except` logs and the accumulated `images`
list — still empty — is returned. `connOk` is whether `self.conn` is
available (the Content Store initialized). Returns the accepted records and
the updated fingerprint store. -/
def extract_images_from_pdf (hashFn : Bytes → Nat) (docOk connOk : Bool)
    (basename : String) (pages : List (List RawImage)) (store : List Nat) :
    List ExtractedImage × List Nat :=
  if docOk = true then processPages hashFn connOk basename 1 pages store
  else ([], store)

/-! ### Invariants of the extraction loop -/

/-- The loop iteration skips an image whose extraction failed, leaving the
store unchanged. -/
theorem processImage_skip_extract (hashFn : Bytes → Nat) (connOk : Bool)
    (basename : String) (page idx : Nat) (img : RawImage) (store : List Nat)
    (h1 : img.extractOk = false) :
    processImage hashFn connOk basename page idx img store = (none, store) := by
  simp [processImage, h1]

/-- The loop iteration skips a small image (width and height both ≤ 100),
leaving the store unchanged. -/
theorem processImage_skip_small (hashFn : Bytes → Nat) (connOk : Bool)
    (basename : String) (page idx : Nat) (img : RawImage) (store : List Nat)
    (h1 : img.extractOk = true) (h2 : img.width ≤ 100 ∧ img.height ≤ 100) :
    processImage hashFn connOk basename page idx img store = (none, store) := by
  simp [processImage, h1, h2]

/-- The loop iteration skips an image whose fingerprint the available store
already holds, leaving the store unchanged. -/
theorem processImage_skip_dup (hashFn : Bytes → Nat) (basename : String)
    (page idx : Nat) (img : RawImage) (store : List Nat)
    (h1 : img.extractOk = true) (h2 : ¬(img.width ≤ 100 ∧ img.height ≤ 100))
    (h3 : hashFn img.image ∈ store) :
    processImage hashFn true basename page idx img store = (none, store) := by
  simp [processImage, h1, h2, h3]

/-- The loop iteration accepts any other image: it emits the record built from
the raw image and, when the store is available, records its fingerprint. -/
theorem processImage_emit (hashFn : Bytes → Nat) (connOk : Bool) (basename : String)
    (page idx : Nat) (img : RawImage) (store : List Nat)
    (h1 : img.extractOk = true) (h2 : ¬(img.width ≤ 100 ∧ img.height ≤ 100))
    (h3 : ¬(connOk = true ∧ hashFn img.image ∈ store)) :
    processImage hashFn connOk basename page idx img store =
      (some { page := page, index := idx, format := img.ext, width := img.width,
              height := img.height, base64 := img.image,
              filepath := if img.saveOk = true then
                  some (imageFilename basename page idx img.suffix img.ext)
                else none,
              hash := hashFn img.image },
       if connOk = true then store ++ [hashFn img.image] else store) := by
  simp only [processImage, h1, Bool.true_eq_false, if_false, h2, if_neg h3,
    if_neg (by simp : ¬False)]

/-- With the store available, one loop iteration appends to the store exactly
the fingerprints of the records it emits. -/
theorem processImage_store_eq (hashFn : Bytes → Nat) (basename : String)
    (page idx : Nat) (img : RawImage) (store : List Nat) :
    (processImage hashFn true basename page idx img store).2 =
      store ++ ((processImage hashFn true basename page idx img store).1.toList.map
        ExtractedImage.hash) := by
  by_cases h1 : img.extractOk = false
  · simp [processImage_skip_extract hashFn true basename page idx img store h1]
  · replace h1 : img.extractOk = true := by simpa using h1
    by_cases h2 : img.width ≤ 100 ∧ img.height ≤ 100
    · simp [processImage_skip_small hashFn true basename page idx img store h1 h2]
    · by_cases h3 : hashFn img.image ∈ store
      · simp [processImage_skip_dup hashFn basename page idx img store h1 h2 h3]
      · simp [processImage_emit hashFn true basename page idx img store h1 h2
          (by simpa using h3)]

/-- An emitted record's fingerprint is the fingerprint function applied to its
byte payload, and its payload is the raw image bytes. -/
theorem processImage_content (hashFn : Bytes → Nat) (connOk : Bool) (basename : String)
    (page idx : Nat) (img : RawImage) (store : List Nat) (e : ExtractedImage)
    (h : (processImage hashFn connOk basename page idx img store).1 = some e) :
    e.hash = hashFn e.base64 ∧ e.base64 = img.image := by
  by_cases h1 : img.extractOk = false
  · rw [processImage_skip_extract hashFn connOk basename page idx img store h1] at h
    cases h
  · replace h1 : img.extractOk = true := by simpa using h1
    by_cases h2 : img.width ≤ 100 ∧ img.height ≤ 100
    · rw [processImage_skip_small hashFn connOk basename page idx img store h1 h2] at h
      cases h
    · by_cases h3 : connOk = true ∧ hashFn img.image ∈ store
      · rw [h3.1] at h
        rw [processImage_skip_dup hashFn basename page idx img store h1 h2 h3.2] at h
        cases h
      · rw [processImage_emit hashFn connOk basename page idx img store h1 h2 h3] at h
        cases h
        exact ⟨rfl, rfl⟩

/-- With the store available, the page loop appends to the store exactly the
fingerprints of the records it emits, in order. -/
theorem processPageImages_store_eq (hashFn : Bytes → Nat) (basename : String)
    (page : Nat) (imgs : List RawImage) :
    ∀ (idx : Nat) (store : List Nat),
      (processPageImages hashFn true basename page idx imgs store).2 =
        store ++ ((processPageImages hashFn true basename page idx imgs store).1.map
          ExtractedImage.hash) := by
  induction imgs with
  | nil => intro idx store; simp [processPageImages]
  | cons img rest ih =>
    intro idx store
    simp only [processPageImages, List.map_append]
    rw [ih, processImage_store_eq, List.append_assoc]

/-- With the store available, the whole document loop appends to the store
exactly the fingerprints of the records it emits, in order. -/
theorem processPages_store_eq (hashFn : Bytes → Nat) (basename : String)
    (pages : List (List RawImage)) :
    ∀ (pageNum : Nat) (store : List Nat),
      (processPages hashFn true basename pageNum pages store).2 =
        store ++ ((processPages hashFn true basename pageNum pages store).1.map
          ExtractedImage.hash) := by
  induction pages with
  | nil => intro pageNum store; simp [processPages]
  | cons pg rest ih =>
    intro pageNum store
    simp only [processPages, List.map_append]
    rw [ih, processPageImages_store_eq, List.append_assoc]

/-- One iteration with the store available keeps the store duplicate-free. -/
theorem processImage_nodup (hashFn : Bytes → Nat) (basename : String)
    (page idx : Nat) (img : RawImage) (store : List Nat) (hnd : store.Nodup) :
    (processImage hashFn true basename page idx img store).2.Nodup := by
  by_cases h1 : img.extractOk = false
  · simpa [processImage_skip_extract hashFn true basename page idx img store h1] using hnd
  · replace h1 : img.extractOk = true := by simpa using h1
    by_cases h2 : img.width ≤ 100 ∧ img.height ≤ 100
    · simpa [processImage_skip_small hashFn true basename page idx img store h1 h2] using hnd
    · by_cases h3 : hashFn img.image ∈ store
      · simpa [processImage_skip_dup hashFn basename page idx img store h1 h2 h3] using hnd
      · rw [processImage_emit hashFn true basename page idx img store h1 h2
          (by simpa using h3)]
        simp only [if_pos rfl]
        refine List.Nodup.append hnd (List.nodup_singleton _) ?_
        intro a ha hb
        simp only [List.mem_singleton] at hb
        subst hb
        exact h3 ha

/-- The page loop with the store available keeps the store duplicate-free. -/
theorem processPageImages_nodup (hashFn : Bytes → Nat) (basename : String)
    (page : Nat) (imgs : List RawImage) :
    ∀ (idx : Nat) (store : List Nat), store.Nodup →
      (processPageImages hashFn true basename page idx imgs store).2.Nodup := by
  induction imgs with
  | nil => intro idx store hnd; simpa [processPageImages] using hnd
  | cons img rest ih =>
    intro idx store hnd
    exact ih (idx + 1) _ (processImage_nodup hashFn basename page idx img store hnd)

/-- The document loop with the store available keeps the store duplicate-free. -/
theorem processPages_nodup (hashFn : Bytes → Nat) (basename : String)
    (pages : List (List RawImage)) :
    ∀ (pageNum : Nat) (store : List Nat), store.Nodup →
      (processPages hashFn true basename pageNum pages store).2.Nodup := by
  induction pages with
  | nil => intro pageNum store hnd; simpa [processPages] using hnd
  | cons pg rest ih =>
    intro pageNum store hnd
    exact ih (pageNum + 1) _ (processPageImages_nodup hashFn basename pageNum pg 1 store hnd)

/-- Every record emitted by the page loop carries fingerprint
`hashFn` of its payload. -/
theorem processPageImages_content (hashFn : Bytes → Nat) (connOk : Bool) (basename : String)
    (page : Nat) (imgs : List RawImage) :
    ∀ (idx : Nat) (store : List Nat) (e : ExtractedImage),
      e ∈ (processPageImages hashFn connOk basename page idx imgs store).1 →
      e.hash = hashFn e.base64 := by
  induction imgs with
  | nil => intro idx store e he; simp [processPageImages] at he
  | cons img rest ih =>
    intro idx store e he
    simp only [processPageImages, List.mem_append] at he
    rcases he with he | he
    · rcases Option.mem_toList.mp he with hsome
      exact (processImage_content hashFn connOk basename page idx img store e hsome).1
    · exact ih (idx + 1) _ e he

/-- Every record emitted by the document loop carries fingerprint
`hashFn` of its payload. -/
theorem processPages_content (hashFn : Bytes → Nat) (connOk : Bool) (basename : String)
    (pages : List (List RawImage)) :
    ∀ (pageNum : Nat) (store : List Nat) (e : ExtractedImage),
      e ∈ (processPages hashFn connOk basename pageNum pages store).1 →
      e.hash = hashFn e.base64 := by
  induction pages with
  | nil => intro pageNum store e he; simp [processPages] at he
  | cons pg rest ih =>
    intro pageNum store e he
    simp only [processPages, List.mem_append] at he
    rcases he with he | he
    · exact processPageImages_content hashFn connOk basename pageNum pg 1 store e he
    · exact ih (pageNum + 1) _ e he

/-- With the store available, a whole extraction run appends to the store
exactly the fingerprints of the records it returns, in order. -/
theorem extract_store_eq (hashFn : Bytes → Nat) (basename : String)
    (pages : List (List RawImage)) (store : List Nat) :
    (extract_images_from_pdf hashFn true true basename pages store).2 =
      store ++ ((extract_images_from_pdf hashFn true true basename pages store).1.map
        ExtractedImage.hash) := by
  simpa [extract_images_from_pdf] using processPages_store_eq hashFn basename pages 1 store

/-- With the store available, an extraction run keeps the store
duplicate-free. -/
theorem extract_nodup (hashFn : Bytes → Nat) (basename : String)
    (pages : List (List RawImage)) (store : List Nat) (hnd : store.Nodup) :
    (extract_images_from_pdf hashFn true true basename pages store).2.Nodup := by
  simpa [extract_images_from_pdf] using processPages_nodup hashFn basename pages 1 store hnd

/-- Every record an extraction run returns carries the fingerprint of its own
byte payload. -/
theorem extract_content (hashFn : Bytes → Nat) (docOk connOk : Bool) (basename : String)
    (pages : List (List RawImage)) (store : List Nat) (e : ExtractedImage)
    (he : e ∈ (extract_images_from_pdf hashFn docOk connOk basename pages store).1) :
    e.hash = hashFn e.base64 := by
  by_cases hd : docOk = true
  · subst hd
    simp only [extract_images_from_pdf, if_pos rfl] at he
    exact processPages_content hashFn connOk basename pages 1 store e he
  · replace hd : docOk = false := by simpa using hd
    subst hd
    simp [extract_images_from_pdf] at he

/-- C4: with the Content Store initialized, running Visual Extraction over two
documents in sequence (the fingerprint store threaded from the first run into
the second, as the shared on-disk database does across all documents ever
processed), the combined output never contains two records with the same
fingerprint — so a second submission of the same image bytes, in the same or
the other document, is excluded; every returned record's fingerprint is the
fingerprint function applied to its byte payload (identical bytes always
fingerprint identically); two output records with identical byte payloads are
the same record; and the final store is duplicate-free and holds each returned
record's fingerprint exactly once. -/
theorem dedup_cross_document (hashFn : Bytes → Nat) (b1 b2 : String)
    (pages1 pages2 : List (List RawImage)) (store0 s1 s2 : List Nat)
    (out1 out2 : List ExtractedImage)
    (hnd : store0.Nodup)
    (h1 : extract_images_from_pdf hashFn true true b1 pages1 store0 = (out1, s1))
    (h2 : extract_images_from_pdf hashFn true true b2 pages2 s1 = (out2, s2)) :
    ((out1 ++ out2).map ExtractedImage.hash).Nodup
    ∧ (∀ e ∈ out1 ++ out2, e.hash = hashFn e.base64)
    ∧ (∀ e1 ∈ out1 ++ out2, ∀ e2 ∈ out1 ++ out2, e1.base64 = e2.base64 → e1 = e2)
    ∧ s2.Nodup
    ∧ (∀ e ∈ out1 ++ out2, s2.count e.hash = 1) := by
  have hs1 : s1 = store0 ++ out1.map ExtractedImage.hash := by
    have := extract_store_eq hashFn b1 pages1 store0
    rw [h1] at this
    exact this
  have hs2 : s2 = s1 ++ out2.map ExtractedImage.hash := by
    have := extract_store_eq hashFn b2 pages2 s1
    rw [h2] at this
    exact this
  have hnd2 : s2.Nodup := by
    have hnd1 : s1.Nodup := by
      have := extract_nodup hashFn b1 pages1 store0 hnd
      rw [h1] at this
      exact this
    have := extract_nodup hashFn b2 pages2 s1 hnd1
    rw [h2] at this
    exact this
  have hsplit : s2 = store0 ++ (out1 ++ out2).map ExtractedImage.hash := by
    rw [hs2, hs1, List.map_append, List.append_assoc]
  have hmapnd : ((out1 ++ out2).map ExtractedImage.hash).Nodup := by
    rw [hsplit] at hnd2
    exact hnd2.of_append_right
  have hcontent : ∀ e ∈ out1 ++ out2, e.hash = hashFn e.base64 := by
    intro e he
    rcases List.mem_append.mp he with he | he
    · refine extract_content hashFn true true b1 pages1 store0 e ?_
      rw [h1]; exact he
    · refine extract_content hashFn true true b2 pages2 s1 e ?_
      rw [h2]; exact he
  refine ⟨hmapnd, hcontent, ?_, hnd2, ?_⟩
  · intro e1 he1 e2 he2 hb
    refine List.inj_on_of_nodup_map hmapnd he1 he2 ?_
    rw [hcontent e1 he1, hcontent e2 he2, hb]
  · intro e he
    refine List.count_eq_one_of_mem hnd2 ?_
    rw [hsplit]
    exact List.mem_append_right _ (List.mem_map_of_mem ExtractedImage.hash he)

/-! ### Concrete inputs for the dedup witness -/

/-- A concrete fingerprint function for witnesses. -/
def wHash : Bytes → Nat := List.sum

/-- A 120×200 content image. -/
def wImgA : RawImage := ⟨true, 120, 200, "png", [7, 7, 7], true, "aaaaaa"⟩

/-- A 300×150 content image with different bytes. -/
def wImgB : RawImage := ⟨true, 300, 150, "jpeg", [1, 2], true, "bbbbbb"⟩

/-- First document: one page holding both images. -/
def wPages1 : List (List RawImage) := [[wImgA, wImgB]]

/-- Second document: the bytes of `wImgA` submitted again. -/
def wPages2 : List (List RawImage) := [[wImgA]]

/-- The first extraction run, from an empty store. -/
def wRun1 : List ExtractedImage × List Nat :=
  extract_images_from_pdf wHash true true "doc1" wPages1 []

/-- The second extraction run, threading the store of the first. -/
def wRun2 : List ExtractedImage × List Nat :=
  extract_images_from_pdf wHash true true "doc2" wPages2 wRun1.2

/-- Witness for C4: the two-run dedup theorem applied at a concrete input
where the second document resubmits the first document's image bytes; the
second submission is indeed excluded (the second run returns no record) and
the store holds one fingerprint per distinct byte content. -/
theorem dedup_cross_document_witness :
    ([] : List Nat).Nodup
    ∧ extract_images_from_pdf wHash true true "doc1" wPages1 [] = (wRun1.1, wRun1.2)
    ∧ extract_images_from_pdf wHash true true "doc2" wPages2 wRun1.2 = (wRun2.1, wRun2.2)
    ∧ (((wRun1.1 ++ wRun2.1).map ExtractedImage.hash).Nodup
       ∧ (∀ e ∈ wRun1.1 ++ wRun2.1, e.hash = wHash e.base64)
       ∧ (∀ e1 ∈ wRun1.1 ++ wRun2.1, ∀ e2 ∈ wRun1.1 ++ wRun2.1,
            e1.base64 = e2.base64 → e1 = e2)
       ∧ wRun2.2.Nodup
       ∧ (∀ e ∈ wRun1.1 ++ wRun2.1, wRun2.2.count e.hash = 1))
    ∧ wRun1.1.length = 2 ∧ wRun2.1 = [] ∧ wRun2.2 = [21, 3] :=
  ⟨List.nodup_nil, rfl, rfl,
   dedup_cross_document wHash "doc1" "doc2" wPages1 wPages2 [] wRun1.2 wRun2.2
     wRun1.1 wRun2.1 List.nodup_nil rfl rfl,
   by decide, by decide, by decide⟩

/-- C5: an image that decoded successfully and is not a duplicate is emitted
by the extraction loop if and only if it is NOT the case that its width and
its height are both ≤ 100 — so a 100×100 image is rejected and a 101×100
image is accepted: the boundary is at ≤ 100 versus > 100 on the conjunction
of both dimensions. -/
theorem size_filter_boundary (hashFn : Bytes → Nat) (connOk : Bool) (basename : String)
    (page idx : Nat) (img : RawImage) (store : List Nat)
    (hok : img.extractOk = true)
    (hfresh : ¬(connOk = true ∧ hashFn img.image ∈ store)) :
    (processImage hashFn connOk basename page idx img store).1.isSome = true
      ↔ ¬(img.width ≤ 100 ∧ img.height ≤ 100) := by
  constructor
  · intro hsome hsmall
    rw [processImage_skip_small hashFn connOk basename page idx img store hok hsmall] at hsome
    simp at hsome
  · intro hbig
    rw [processImage_emit hashFn connOk basename page idx img store hok hbig hfresh]
    rfl

/-- Witness for C5 at the inclusion boundary: a 101×100 fresh image is
accepted (and, by the same theorem instantiated at 100×100, a 100×100 one is
rejected). -/
theorem size_filter_boundary_witness :
    (RawImage.extractOk ⟨true, 101, 100, "png", [5], true, "cccccc"⟩ = true)
    ∧ ¬(true = true ∧ wHash [5] ∈ ([] : List Nat))
    ∧ ((processImage wHash true "doc" 1 1 ⟨true, 101, 100, "png", [5], true, "cccccc"⟩ []).1.isSome = true
        ↔ ¬((101 : Nat) ≤ 100 ∧ (100 : Nat) ≤ 100))
    ∧ (processImage wHash true "doc" 1 1 ⟨true, 100, 100, "png", [5], true, "cccccc"⟩ []).1 = none :=
  ⟨rfl, by decide,
   size_filter_boundary wHash true "doc" 1 1 ⟨true, 101, 100, "png", [5], true, "cccccc"⟩ []
     rfl (by decide),
   by decide⟩

/-- C8: an accepted image whose write to the scratch directory fails is still
emitted by the extraction loop, with `filepath := none` and its byte payload
still attached to the record (so it stays eligible for captioning);
persistence failure never removes the image from the output. -/
theorem persist_failure_keeps_image (hashFn : Bytes → Nat) (connOk : Bool)
    (basename : String) (page idx : Nat) (img : RawImage) (store : List Nat)
    (hok : img.extractOk = true)
    (hbig : ¬(img.width ≤ 100 ∧ img.height ≤ 100))
    (hfresh : ¬(connOk = true ∧ hashFn img.image ∈ store))
    (hsave : img.saveOk = false) :
    (processImage hashFn connOk basename page idx img store).1 =
      some { page := page, index := idx, format := img.ext, width := img.width,
             height := img.height, base64 := img.image, filepath := none,
             hash := hashFn img.image } := by
  rw [processImage_emit hashFn connOk basename page idx img store hok hbig hfresh]
  simp [hsave]

/-- Witness for C8: a concrete 500×400 image whose save fails is kept with a
null path and its bytes attached. -/
theorem persist_failure_keeps_image_witness :
    (RawImage.extractOk ⟨true, 500, 400, "png", [9, 9], false, "dddddd"⟩ = true)
    ∧ ¬((500 : Nat) ≤ 100 ∧ (400 : Nat) ≤ 100)
    ∧ ¬(true = true ∧ wHash [9, 9] ∈ ([] : List Nat))
    ∧ (RawImage.saveOk ⟨true, 500, 400, "png", [9, 9], false, "dddddd"⟩ = false)
    ∧ (processImage wHash true "doc" 2 3 ⟨true, 500, 400, "png", [9, 9], false, "dddddd"⟩ []).1 =
        some { page := 2, index := 3, format := "png", width := 500, height := 400,
               base64 := [9, 9], filepath := none, hash := wHash [9, 9] } :=
  ⟨rfl, by decide, by decide, rfl,
   persist_failure_keeps_image wHash true "doc" 2 3
     ⟨true, 500, 400, "png", [9, 9], false, "dddddd"⟩ [] rfl (by decide) (by decide) rfl⟩

/-! ## Caption Fan-Out (SummarizationAgent.caption_image under asyncio.gather)

`process_pdf_document` runs `asyncio.gather(*[self.caption_image(d) for d in
extracted_images])`: one captioning request per record, results collected
positionally. The external chat-completion call is modelled by a response
oracle giving, per position, either the response text or a raised exception.
`caption_image` mutates its record in place (adds the `"caption"` key) and
returns it; the mutated record is modelled as the pair of the untouched
record and the caption. -/

/-- The fixed sentinel failure string substituted when captioning fails. -/
def sentinelCaption : String := "Error generating caption"

/-- ASCII whitespace as Python's `str.strip()` removes it. -/
def isStripChar (c : Char) : Bool :=
  c = ' ' || c = '\t' || c = '\n' || c = '\r' || c = '\x0b' || c = '\x0c'

/-- Python `str.strip()`: drop whitespace from both ends. -/
def pyStrip (s : String) : String :=
  ⟨(((s.data.dropWhile isStripChar).reverse.dropWhile isStripChar).reverse)⟩

/-- An `ExtractedImage` dict after `caption_image` added its `"caption"` key. -/
structure CaptionedImage where
  image : ExtractedImage
  caption : String
deriving Repr, DecidableEq

/-- `SummarizationAgent.caption_image`: on a successful response the caption
is the response text stripped of surrounding whitespace
(`response.choices[0].message.content.strip()`); on any exception the caption
is the fixed sentinel string, and the failure never propagates. -/
def caption_image (response : Except String String) (image_data : ExtractedImage) :
    CaptionedImage :=
  match response with
  | .ok text => { image := image_data, caption := pyStrip text }
  | .error _ => { image := image_data, caption := sentinelCaption }

/-- The gather over the caption comprehension: request `i` of the batch gets
response `responses (k + i)`; outputs are collected in input order. -/
def captionFanOut (responses : Nat → Except String String) :
    Nat → List ExtractedImage → List CaptionedImage
  | _, [] => []
  | i, img :: rest => caption_image (responses i) img :: captionFanOut responses (i + 1) rest

theorem captionFanOut_length (responses : Nat → Except String String) :
    ∀ (k : Nat) (imgs : List ExtractedImage),
      (captionFanOut responses k imgs).length = imgs.length
  | _, [] => rfl
  | k, _ :: rest => by
    simp [captionFanOut, captionFanOut_length responses (k + 1) rest]

theorem captionFanOut_get (responses : Nat → Except String String) :
    ∀ (k : Nat) (imgs : List ExtractedImage) (i : Nat) (hi : i < imgs.length)
      (hi' : i < (captionFanOut responses k imgs).length),
      (captionFanOut responses k imgs).get ⟨i, hi'⟩ =
        caption_image (responses (k + i)) (imgs.get ⟨i, hi⟩)
  | k, img :: rest, 0, _, _ => rfl
  | k, img :: rest, j + 1, hi, hi' => by
    have h := captionFanOut_get responses (k + 1) rest j (Nat.lt_of_succ_lt_succ hi)
      (by simpa [captionFanOut] using Nat.lt_of_succ_lt_succ hi')
    simpa [captionFanOut, Nat.add_assoc, Nat.add_comm 1 j] using h

/-- C6: the caption fan-out never fails as a whole: for N input images it
returns exactly N outputs in 1:1 identity-preserving correspondence with the
inputs (output i is input i's record); a position whose captioning call
raised carries the fixed sentinel failure string as its caption, and a
position whose call succeeded carries the response text (stripped); a single
failure never touches sibling positions. -/
theorem caption_fanout_isolation (responses : Nat → Except String String)
    (imgs : List ExtractedImage) (i : Nat)
    (hi : i < imgs.length) (hi' : i < (captionFanOut responses 0 imgs).length) :
    (captionFanOut responses 0 imgs).length = imgs.length
    ∧ ((captionFanOut responses 0 imgs).get ⟨i, hi'⟩).image = imgs.get ⟨i, hi⟩
    ∧ (∀ err, responses i = .error err →
        ((captionFanOut responses 0 imgs).get ⟨i, hi'⟩).caption = sentinelCaption)
    ∧ (∀ text, responses i = .ok text →
        ((captionFanOut responses 0 imgs).get ⟨i, hi'⟩).caption = pyStrip text) := by
  have hget := captionFanOut_get responses 0 imgs i hi hi'
  simp only [Nat.zero_add] at hget
  refine ⟨captionFanOut_length responses 0 imgs, ?_, ?_, ?_⟩
  · rw [hget]
    cases responses i <;> rfl
  · intro err herr
    rw [hget, herr]
    rfl
  · intro text htext
    rw [hget, htext]
    rfl

/-- Two concrete accepted records for the fan-out witness. -/
def wRecA : ExtractedImage :=
  { page := 1, index := 1, format := "png", width := 120, height := 200,
    base64 := [7, 7, 7], filepath := some "doc_p1_img1_aaaaaa.png", hash := 21 }

/-- Second concrete record. -/
def wRecB : ExtractedImage :=
  { page := 1, index := 2, format := "jpeg", width := 300, height := 150,
    base64 := [1, 2], filepath := none, hash := 3 }

/-- A response oracle where the first captioning call raises and the second
returns text. -/
def wResponses : Nat → Except String String :=
  fun i => if i = 0 then .error "APIConnectionError" else .ok " A bar chart. "

/-- Witness for C6: at a concrete 2-image batch whose first call fails, the
fan-out returns 2 outputs, position 0 keeps its record and carries the
sentinel, position 1 carries the stripped response text. -/
theorem caption_fanout_isolation_witness :
    (0 : Nat) < [wRecA, wRecB].length
    ∧ (0 : Nat) < (captionFanOut wResponses 0 [wRecA, wRecB]).length
    ∧ ((captionFanOut wResponses 0 [wRecA, wRecB]).length = [wRecA, wRecB].length
       ∧ ((captionFanOut wResponses 0 [wRecA, wRecB]).get ⟨0, by decide⟩).image =
           [wRecA, wRecB].get ⟨0, by decide⟩
       ∧ (∀ err, wResponses 0 = .error err →
           ((captionFanOut wResponses 0 [wRecA, wRecB]).get ⟨0, by decide⟩).caption =
             sentinelCaption)
       ∧ (∀ text, wResponses 0 = .ok text →
           ((captionFanOut wResponses 0 [wRecA, wRecB]).get ⟨0, by decide⟩).caption =
             pyStrip text))
    ∧ captionFanOut wResponses 0 [wRecA, wRecB] =
        [{ image := wRecA, caption := sentinelCaption },
         { image := wRecB, caption := "A bar chart." }] :=
  ⟨by decide, by decide,
   caption_fanout_isolation wResponses [wRecA, wRecB] 0 (by decide) (by decide),
   by decide⟩

/-! ## Document Analysis Session (SummarizationAgent.process_pdf_document)

The method's external calls are modelled by a `SessionEnv` giving each call's
result. Image extraction and captioning are total (they absorb their own
failures, as proved above), so the session takes the already-captioned image
records as an input. Python local-variable semantics matter in the `finally`
block: `thread` and `file_id` are assigned only at their call sites, and the
`finally` block's `if thread:` / `if file_id:` evaluations raise
`UnboundLocalError` when the corresponding assignment was never reached; a
`finally`-raised exception replaces the pending return value or exception. -/

/-- One content block of a listed thread message: a `TextContentBlock` with
its text value, or any other block type. -/
inductive ContentBlock
  | text (value : String)
  | other
deriving Repr, DecidableEq

/-- One message as returned by `threads.messages.list(order="desc", limit=1)`. -/
structure ThreadMessage where
  role : String
  content : List ContentBlock
deriving Repr, DecidableEq

/-- A terminal run status: the polling loop leaves only on one of these. -/
inductive TerminalStatus
  | completed
  | failed
  | cancelled
  | expired
deriving Repr, DecidableEq

/-- The status as Python formats it into the error f-string. -/
def statusText : TerminalStatus → String
  | .completed => "completed"
  | .failed => "failed"
  | .cancelled => "cancelled"
  | .expired => "expired"

/-- The `metadata` sub-dict of a returned artifact. The success dict carries
`filename` and `extracted_images_data`; the exception-path dict carries only
`filename` (no `extracted_images_data` key). -/
structure ArtifactMetadata where
  filename : String
  extracted_images_data : Option (List CaptionedImage)
deriving Repr, DecidableEq

/-- The dict `process_pdf_document` returns: `success` flag, `summary` key
(success only), `error` key (failure only), and `metadata` (absent on the
run-not-completed dict). -/
structure SummaryArtifact where
  success : Bool
  summary : Option String
  error : Option String
  metadata : Option ArtifactMetadata
deriving Repr, DecidableEq

/-- The success dict of `process_pdf_document`. -/
def successArtifact (text filename : String) (imgs : List CaptionedImage) :
    SummaryArtifact :=
  { success := true, summary := some text, error := none,
    metadata := some { filename := filename, extracted_images_data := some imgs } }

/-- The dict returned by the `except Exception` handler:
`{"success": False, "error": str(e), "metadata": {"filename": ...}}`. -/
def exceptionArtifact (msg filename : String) : SummaryArtifact :=
  { success := false, summary := none, error := some msg,
    metadata := some { filename := filename, extracted_images_data := none } }

/-- The dict returned when the run ends in a non-completed terminal status
(no `metadata` key). -/
def runFailedArtifact (st : TerminalStatus) (lastError : String) : SummaryArtifact :=
  { success := false, summary := none,
    error := some ("Processing failed with status: " ++ statusText st
      ++ ", Last error: " ++ lastError),
    metadata := none }

/-- `"Assistant response not found or invalid format."` -/
def notFoundPlaceholder : String := "Assistant response not found or invalid format."

/-- The retrieval of the narrative from the listed messages: the text value of
the first content block of the most recent message when that message is
assistant-authored and its first block is a text block; the fixed placeholder
otherwise (including when no message or no content block is present). -/
def extractSummaryText (data : List ThreadMessage) : String :=
  match data with
  | [] => notFoundPlaceholder
  | m :: _ =>
    if m.role = "assistant" then
      match m.content with
      | ContentBlock.text v :: _ => v
      | _ => notFoundPlaceholder
    else notFoundPlaceholder

/-- The condition under which the code finds an assistant narrative: the most
recent listed message is assistant-authored and its first content block is a
text block. -/
def assistantTextFound (data : List ThreadMessage) : Bool :=
  match data with
  | [] => false
  | m :: _ =>
    (m.role = "assistant" : Bool) &&
      (match m.content with
       | ContentBlock.text _ :: _ => true
       | _ => false)

theorem extractSummaryText_of_not_found (data : List ThreadMessage)
    (h : assistantTextFound data = false) :
    extractSummaryText data = notFoundPlaceholder := by
  match data with
  | [] => rfl
  | m :: rest =>
    simp only [assistantTextFound, Bool.and_eq_false_iff] at h
    simp only [extractSummaryText]
    rcases h with h | h
    · rw [if_neg (by simpa using h)]
    · by_cases hrole : m.role = "assistant"
      · rw [if_pos hrole]
        match hc : m.content with
        | [] => rfl
        | ContentBlock.text v :: _ => rw [hc] at h; cases h
        | ContentBlock.other :: _ => rfl
      · rw [if_neg hrole]

/-- The outcomes of each external call `process_pdf_document` makes, in the
order the method makes them. `uploadResult` covers `open(pdf_path)` +
`files.create` (the file id on success); `assistantResult` is
`get_or_create_assistant` (which re-raises its failures); `threadResult` is
`threads.create`; `messageResult` is `threads.messages.create`;
`runCreateResult` covers `runs.create` and the polling retrievals;
`finalRunStatus`/`runLastError` are the terminal state the polling loop
observes; `listResult` is `threads.messages.list(order="desc", limit=1)`. -/
structure SessionEnv where
  uploadResult : Except String String
  assistantResult : Except String String
  threadResult : Except String String
  messageResult : Except String Unit
  runCreateResult : Except String Unit
  finalRunStatus : TerminalStatus
  runLastError : String
  listResult : Except String (List ThreadMessage)
deriving Repr

/-- A Python error escaping the method: the `finally` block's evaluation of a
never-assigned local (`UnboundLocalError`, a `NameError`). -/
inductive PyError
  | unboundLocal
deriving Repr, DecidableEq

/-- What a call of `process_pdf_document` does: return a dict, or raise. -/
inductive Outcome
  | returned (a : SummaryArtifact)
  | raised (e : PyError)
deriving Repr, DecidableEq

/-- Whether an outcome is a returned failure artifact (success flag false). -/
def isFailureArtifact : Outcome → Bool
  | .returned a => !a.success
  | .raised _ => false

/-- The `try`/`except` body of `process_pdf_document`: the returned dict
together with the final state of the locals `thread` and `file_id`
(`none` = never assigned). Every exception a call raises is caught by the
`except Exception` handler, which returns the exception-path dict. -/
def sessionBody (env : SessionEnv) (filename : String)
    (captioned : List CaptionedImage) :
    SummaryArtifact × Option String × Option String :=
  match env.uploadResult with
  | .error e => (exceptionArtifact e filename, none, none)
  | .ok fid =>
    match env.assistantResult with
    | .error e => (exceptionArtifact e filename, none, some fid)
    | .ok _ =>
      match env.threadResult with
      | .error e => (exceptionArtifact e filename, none, some fid)
      | .ok tid =>
        match env.messageResult with
        | .error e => (exceptionArtifact e filename, some tid, some fid)
        | .ok _ =>
          match env.runCreateResult with
          | .error e => (exceptionArtifact e filename, some tid, some fid)
          | .ok _ =>
            if env.finalRunStatus = .completed then
              match env.listResult with
              | .error e => (exceptionArtifact e filename, some tid, some fid)
              | .ok msgs =>
                (successArtifact (extractSummaryText msgs) filename captioned,
                 some tid, some fid)
            else
              (runFailedArtifact env.finalRunStatus env.runLastError,
               some tid, some fid)

/-- The result of one `process_pdf_document` call: its outcome and how many
thread-deletion and file-deletion calls the teardown issued. -/
structure SessionResult where
  outcome : Outcome
  threadDeleteCalls : Nat
  fileDeleteCalls : Nat
deriving Repr, DecidableEq

/-- `SummarizationAgent.process_pdf_document`: the body followed by the
`finally` block. `if thread:` raises `UnboundLocalError` when `thread` was
never assigned (replacing the pending return); otherwise the thread deletion
is attempted (its own failure only logged), then likewise `if file_id:` and
the file deletion. -/
def process_pdf_document (env : SessionEnv) (filename : String)
    (captioned : List CaptionedImage) : SessionResult :=
  match sessionBody env filename captioned with
  | (result, threadVar, fileVar) =>
    match threadVar with
    | none => { outcome := .raised .unboundLocal,
                threadDeleteCalls := 0, fileDeleteCalls := 0 }
    | some _ =>
      match fileVar with
      | none => { outcome := .raised .unboundLocal,
                  threadDeleteCalls := 1, fileDeleteCalls := 0 }
      | some _ => { outcome := .returned result,
                    threadDeleteCalls := 1, fileDeleteCalls := 1 }

/-! ### Session teardown behavior -/

/-- When the upload raises, the `except` handler prepares the failure dict but
the `finally` block evaluates `if thread:` with `thread` never assigned: the
call raises `UnboundLocalError` instead of returning, and issues no deletion
call. -/
theorem process_upload_error (env : SessionEnv) (filename : String)
    (captioned : List CaptionedImage) (e : String)
    (h : env.uploadResult = .error e) :
    process_pdf_document env filename captioned =
      { outcome := .raised .unboundLocal, threadDeleteCalls := 0,
        fileDeleteCalls := 0 } := by
  simp [process_pdf_document, sessionBody, h]

/-- When the upload succeeds but conversation creation raises, `thread` is
still unbound in the `finally` block: the call raises `UnboundLocalError` and
deletes neither resource — in particular the uploaded file is never deleted. -/
theorem process_thread_error (env : SessionEnv) (filename : String)
    (captioned : List CaptionedImage) (fid aid e : String)
    (h1 : env.uploadResult = .ok fid) (h2 : env.assistantResult = .ok aid)
    (h3 : env.threadResult = .error e) :
    process_pdf_document env filename captioned =
      { outcome := .raised .unboundLocal, threadDeleteCalls := 0,
        fileDeleteCalls := 0 } := by
  simp [process_pdf_document, sessionBody, h1, h2, h3]

/-- When message-send raises after conversation creation succeeded, the
failure dict is returned and the teardown issues exactly one thread deletion
and one file deletion. -/
theorem process_message_error (env : SessionEnv) (filename : String)
    (captioned : List CaptionedImage) (fid aid tid e : String)
    (h1 : env.uploadResult = .ok fid) (h2 : env.assistantResult = .ok aid)
    (h3 : env.threadResult = .ok tid) (h4 : env.messageResult = .error e) :
    process_pdf_document env filename captioned =
      { outcome := .returned (exceptionArtifact e filename),
        threadDeleteCalls := 1, fileDeleteCalls := 1 } := by
  simp [process_pdf_document, sessionBody, h1, h2, h3, h4]

/-- C2 (what the code actually does on the three exit paths the claim covers):
when message-send fails after conversation creation, the failure artifact is
returned and each deletion call is issued exactly once — but when the upload
fails before conversation creation, the session does NOT return a failure
artifact: the `finally` block's `if thread:` raises `UnboundLocalError` (no
conversation-deletion call occurs, as the claim says, yet the session raises
instead of returning); and when the upload succeeded and conversation creation
failed, the same `UnboundLocalError` is raised before any deletion call, so
the uploaded document is never deleted. -/
theorem session_teardown_behavior (envU envT envM : SessionEnv)
    (filename : String) (captioned : List CaptionedImage)
    (eu et em fidT aidT fidM aidM tidM : String)
    (hU : envU.uploadResult = .error eu)
    (hT1 : envT.uploadResult = .ok fidT) (hT2 : envT.assistantResult = .ok aidT)
    (hT3 : envT.threadResult = .error et)
    (hM1 : envM.uploadResult = .ok fidM) (hM2 : envM.assistantResult = .ok aidM)
    (hM3 : envM.threadResult = .ok tidM) (hM4 : envM.messageResult = .error em) :
    process_pdf_document envU filename captioned =
      { outcome := .raised .unboundLocal, threadDeleteCalls := 0,
        fileDeleteCalls := 0 }
    ∧ process_pdf_document envT filename captioned =
      { outcome := .raised .unboundLocal, threadDeleteCalls := 0,
        fileDeleteCalls := 0 }
    ∧ process_pdf_document envM filename captioned =
      { outcome := .returned (exceptionArtifact em filename),
        threadDeleteCalls := 1, fileDeleteCalls := 1 } :=
  ⟨process_upload_error envU filename captioned eu hU,
   process_thread_error envT filename captioned fidT aidT et hT1 hT2 hT3,
   process_message_error envM filename captioned fidM aidM tidM em hM1 hM2 hM3 hM4⟩

/-- A fully successful environment whose run completes with an
assistant-authored text reply. -/
def wEnvOk : SessionEnv :=
  { uploadResult := .ok "file-1", assistantResult := .ok "asst-1",
    threadResult := .ok "thread-1", messageResult := .ok (),
    runCreateResult := .ok (), finalRunStatus := .completed,
    runLastError := "",
    listResult := .ok [⟨"assistant", [ContentBlock.text "All good."]⟩] }

/-- The same environment with the upload raising. -/
def wEnvUploadFail : SessionEnv :=
  { wEnvOk with uploadResult := .error "APIConnectionError: upload failed" }

/-- The same environment with the upload succeeding and conversation creation
raising. -/
def wEnvThreadFail : SessionEnv :=
  { wEnvOk with threadResult := .error "APIConnectionError: threads.create failed" }

/-- The same environment with message-send raising after conversation
creation. -/
def wEnvMessageFail : SessionEnv :=
  { wEnvOk with messageResult := .error "BadRequestError: message rejected" }

/-- Witness for C2's behavior theorem at concrete environments. -/
theorem session_teardown_behavior_witness :
    wEnvUploadFail.uploadResult = .error "APIConnectionError: upload failed"
    ∧ wEnvThreadFail.uploadResult = .ok "file-1"
    ∧ wEnvThreadFail.assistantResult = .ok "asst-1"
    ∧ wEnvThreadFail.threadResult = .error "APIConnectionError: threads.create failed"
    ∧ wEnvMessageFail.uploadResult = .ok "file-1"
    ∧ wEnvMessageFail.assistantResult = .ok "asst-1"
    ∧ wEnvMessageFail.threadResult = .ok "thread-1"
    ∧ wEnvMessageFail.messageResult = .error "BadRequestError: message rejected"
    ∧ (process_pdf_document wEnvUploadFail "report.pdf" [] =
        { outcome := .raised .unboundLocal, threadDeleteCalls := 0,
          fileDeleteCalls := 0 }
      ∧ process_pdf_document wEnvThreadFail "report.pdf" [] =
        { outcome := .raised .unboundLocal, threadDeleteCalls := 0,
          fileDeleteCalls := 0 }
      ∧ process_pdf_document wEnvMessageFail "report.pdf" [] =
        { outcome := .returned (exceptionArtifact "BadRequestError: message rejected" "report.pdf"),
          threadDeleteCalls := 1, fileDeleteCalls := 1 }) :=
  ⟨rfl, rfl, rfl, rfl, rfl, rfl, rfl, rfl,
   session_teardown_behavior wEnvUploadFail wEnvThreadFail wEnvMessageFail
     "report.pdf" [] "APIConnectionError: upload failed"
     "APIConnectionError: threads.create failed" "BadRequestError: message rejected"
     "file-1" "asst-1" "file-1" "asst-1" "thread-1"
     rfl rfl rfl rfl rfl rfl rfl rfl⟩

/-- C10: when every call succeeds, the run ends `completed`, and the listed
messages hold no assistant-authored text narrative (the most recent message is
not assistant-authored, or its first content block is not a text block), the
session still returns a success artifact whose narrative is the fixed
placeholder string — a completed run never yields a failure artifact. -/
theorem completed_run_placeholder (env : SessionEnv) (filename : String)
    (captioned : List CaptionedImage) (fid aid tid : String)
    (msgs : List ThreadMessage)
    (h1 : env.uploadResult = .ok fid) (h2 : env.assistantResult = .ok aid)
    (h3 : env.threadResult = .ok tid) (h4 : env.messageResult = .ok ())
    (h5 : env.runCreateResult = .ok ()) (h6 : env.finalRunStatus = .completed)
    (h7 : env.listResult = .ok msgs)
    (h8 : assistantTextFound msgs = false) :
    process_pdf_document env filename captioned =
      { outcome := .returned (successArtifact notFoundPlaceholder filename captioned),
        threadDeleteCalls := 1, fileDeleteCalls := 1 } := by
  simp [process_pdf_document, sessionBody, h1, h2, h3, h4, h5, h6, h7,
    extractSummaryText_of_not_found msgs h8]

/-- The successful environment, but the most recent listed message is
user-authored. -/
def wEnvUserMsg : SessionEnv :=
  { wEnvOk with listResult := .ok [⟨"user", [ContentBlock.text "the prompt"]⟩] }

/-- Witness for C10 at a concrete environment whose completed run lists a
user-authored message last. -/
theorem completed_run_placeholder_witness :
    wEnvUserMsg.uploadResult = .ok "file-1"
    ∧ wEnvUserMsg.assistantResult = .ok "asst-1"
    ∧ wEnvUserMsg.threadResult = .ok "thread-1"
    ∧ wEnvUserMsg.messageResult = .ok ()
    ∧ wEnvUserMsg.runCreateResult = .ok ()
    ∧ wEnvUserMsg.finalRunStatus = .completed
    ∧ wEnvUserMsg.listResult = .ok [⟨"user", [ContentBlock.text "the prompt"]⟩]
    ∧ assistantTextFound [⟨"user", [ContentBlock.text "the prompt"]⟩] = false
    ∧ process_pdf_document wEnvUserMsg "report.pdf" [] =
        { outcome := .returned (successArtifact notFoundPlaceholder "report.pdf" []),
          threadDeleteCalls := 1, fileDeleteCalls := 1 } :=
  ⟨rfl, rfl, rfl, rfl, rfl, rfl, rfl, by decide,
   completed_run_placeholder wEnvUserMsg "report.pdf" [] "file-1" "asst-1" "thread-1"
     [⟨"user", [ContentBlock.text "the prompt"]⟩]
     rfl rfl rfl rfl rfl rfl rfl (by decide)⟩

/-! ## Pipeline Orchestrator (process_pdf_batch)

`asyncio.gather(*tasks, return_exceptions=True)` over one
`process_pdf_document` task per input path: results arrive positionally, and
with `return_exceptions=True` a task's raised exception is placed in its slot
as the exception object instead of propagating. -/

/-- One document's inputs: its call environment, its filename, and the
captioned images its extraction/captioning stages produce. -/
structure DocumentRun where
  env : SessionEnv
  filename : String
  captioned : List CaptionedImage
deriving Repr

/-- `process_pdf_batch`: one result per input document, in input order; a
document whose task raised contributes the exception object itself. -/
def process_pdf_batch (docs : List DocumentRun) : List Outcome :=
  docs.map fun d => (process_pdf_document d.env d.filename d.captioned).outcome

/-- Counterexample to C3 as stated: three documents where document 2's upload
raises. The batch returns 3 results and documents 1 and 3 carry success
artifacts, but document 2's entry is the captured exception object
(`UnboundLocalError` from the session's `finally` block), NOT a
SummaryArtifact with success = false. -/
theorem batch_entry_is_exception_object :
    process_pdf_batch
        [⟨wEnvOk, "a.pdf", []⟩, ⟨wEnvUploadFail, "b.pdf", []⟩, ⟨wEnvOk, "c.pdf", []⟩] =
      [.returned (successArtifact "All good." "a.pdf" []),
       .raised .unboundLocal,
       .returned (successArtifact "All good." "c.pdf" [])]
    ∧ (process_pdf_batch
        [⟨wEnvOk, "a.pdf", []⟩, ⟨wEnvUploadFail, "b.pdf", []⟩, ⟨wEnvOk, "c.pdf", []⟩]).length = 3
    ∧ isFailureArtifact
        ((process_pdf_batch
          [⟨wEnvOk, "a.pdf", []⟩, ⟨wEnvUploadFail, "b.pdf", []⟩, ⟨wEnvOk, "c.pdf", []⟩]).getD 1
          (.raised .unboundLocal)) = false :=
  ⟨by decide, by decide, by decide⟩

/-- C3 (amended): the batch returns exactly one result per input document, in
input order; each document's entry is a function of that document's own run
alone, so one document's failure never cancels or corrupts a sibling's entry;
and a document whose upload raises contributes the captured exception object
in its slot — the exception does not propagate out of the batch, but it is
not translated into a failure artifact either. -/
theorem batch_per_document (docs : List DocumentRun) (i : Nat) (e : String)
    (hi : i < docs.length) (hi' : i < (process_pdf_batch docs).length) :
    (process_pdf_batch docs).length = docs.length
    ∧ (process_pdf_batch docs).get ⟨i, hi'⟩ =
        (process_pdf_document (docs.get ⟨i, hi⟩).env (docs.get ⟨i, hi⟩).filename
          (docs.get ⟨i, hi⟩).captioned).outcome
    ∧ ((docs.get ⟨i, hi⟩).env.uploadResult = .error e →
        (process_pdf_batch docs).get ⟨i, hi'⟩ = .raised .unboundLocal) := by
  have hlen : (process_pdf_batch docs).length = docs.length := by
    simp [process_pdf_batch]
  have hget : (process_pdf_batch docs).get ⟨i, hi'⟩ =
      (process_pdf_document (docs.get ⟨i, hi⟩).env (docs.get ⟨i, hi⟩).filename
        (docs.get ⟨i, hi⟩).captioned).outcome := by
    simp [process_pdf_batch, List.get_eq_getElem, List.getElem_map]
  refine ⟨hlen, hget, ?_⟩
  intro hup
  rw [hget, process_upload_error (docs.get ⟨i, hi⟩).env (docs.get ⟨i, hi⟩).filename
    (docs.get ⟨i, hi⟩).captioned e hup]

/-- Witness for the amended C3 at the concrete three-document batch, at the
raising document's position. -/
theorem batch_per_document_witness :
    (1 : Nat) < ([⟨wEnvOk, "a.pdf", []⟩, ⟨wEnvUploadFail, "b.pdf", []⟩,
        ⟨wEnvOk, "c.pdf", []⟩] : List DocumentRun).length
    ∧ (1 : Nat) < (process_pdf_batch [⟨wEnvOk, "a.pdf", []⟩,
        ⟨wEnvUploadFail, "b.pdf", []⟩, ⟨wEnvOk, "c.pdf", []⟩]).length
    ∧ ((process_pdf_batch [⟨wEnvOk, "a.pdf", []⟩, ⟨wEnvUploadFail, "b.pdf", []⟩,
          ⟨wEnvOk, "c.pdf", []⟩]).length =
        ([⟨wEnvOk, "a.pdf", []⟩, ⟨wEnvUploadFail, "b.pdf", []⟩,
          ⟨wEnvOk, "c.pdf", []⟩] : List DocumentRun).length
      ∧ (process_pdf_batch [⟨wEnvOk, "a.pdf", []⟩, ⟨wEnvUploadFail, "b.pdf", []⟩,
          ⟨wEnvOk, "c.pdf", []⟩]).get ⟨1, by decide⟩ =
        (process_pdf_document
          (([⟨wEnvOk, "a.pdf", []⟩, ⟨wEnvUploadFail, "b.pdf", []⟩,
             ⟨wEnvOk, "c.pdf", []⟩] : List DocumentRun).get ⟨1, by decide⟩).env
          (([⟨wEnvOk, "a.pdf", []⟩, ⟨wEnvUploadFail, "b.pdf", []⟩,
             ⟨wEnvOk, "c.pdf", []⟩] : List DocumentRun).get ⟨1, by decide⟩).filename
          (([⟨wEnvOk, "a.pdf", []⟩, ⟨wEnvUploadFail, "b.pdf", []⟩,
             ⟨wEnvOk, "c.pdf", []⟩] : List DocumentRun).get ⟨1, by decide⟩).captioned).outcome
      ∧ ((([⟨wEnvOk, "a.pdf", []⟩, ⟨wEnvUploadFail, "b.pdf", []⟩,
             ⟨wEnvOk, "c.pdf", []⟩] : List DocumentRun).get ⟨1, by decide⟩).env.uploadResult =
            .error "APIConnectionError: upload failed" →
          (process_pdf_batch [⟨wEnvOk, "a.pdf", []⟩, ⟨wEnvUploadFail, "b.pdf", []⟩,
            ⟨wEnvOk, "c.pdf", []⟩]).get ⟨1, by decide⟩ = .raised .unboundLocal)) :=
  ⟨by decide, by decide,
   batch_per_document
     [⟨wEnvOk, "a.pdf", []⟩, ⟨wEnvUploadFail, "b.pdf", []⟩, ⟨wEnvOk, "c.pdf", []⟩]
     1 "APIConnectionError: upload failed" (by decide) (by decide)⟩

/-! ## Content Store initialization (SummarizationAgent._init_image_hash_db)

The method's two external effects are directory creation and the SQLite
connect/pragma/table/commit sequence; the log records it emits are modelled
as (level, message) pairs with the f-string paths fixed (`db_dir` is the
constant `"/app/data"`). -/

/-- The logging levels the agent module uses. -/
inductive LogLevel
  | debug
  | info
  | warning
  | error
deriving Repr, DecidableEq

/-- The external outcomes of `_init_image_hash_db`: `os.makedirs` succeeding,
and the SQLite connect/initialize sequence succeeding. -/
structure InitEnv where
  makedirsOk : Bool
  connectOk : Bool
deriving Repr, DecidableEq

/-- `_init_image_hash_db`: returns whether `self.conn` ends up set, and the
log records emitted. On `makedirs` failure the method logs an ERROR and
returns with `conn = None`; on SQLite failure it logs an ERROR and sets
`conn = None`; no exception escapes in either case. -/
def init_image_hash_db (env : InitEnv) : Bool × List (LogLevel × String) :=
  let logs0 := [(LogLevel.info,
      "Attempting to initialize SQLite DB at: /app/data/image_hashes.db"),
    (LogLevel.debug, "Checking/creating directory: /app/data")]
  if env.makedirsOk = false then
    (false, logs0 ++ [(LogLevel.error, "Failed to create directory /app/data")])
  else
    let logs1 := logs0 ++ [(LogLevel.debug, "Directory /app/data exists."),
      (LogLevel.debug, "Attempting to connect to SQLite DB: /app/data/image_hashes.db")]
    if env.connectOk = false then
      (false, logs1 ++ [(LogLevel.error,
        "Failed to initialize or connect to SQLite DB at /app/data/image_hashes.db")])
    else
      (true, logs1 ++ [(LogLevel.debug, "SQLite connection successful"),
        (LogLevel.info, "Connected to image hash database at /app/data/image_hashes.db")])

/-- With no store connection, the extraction loop leaves the store alone,
never consults it, and emits exactly the decodable, not-both-≤100 images. -/
theorem processImage_no_conn (hashFn : Bytes → Nat) (basename : String)
    (page idx : Nat) (img : RawImage) (store : List Nat) :
    processImage hashFn false basename page idx img store =
      ((if img.extractOk = true ∧ ¬(img.width ≤ 100 ∧ img.height ≤ 100) then
          some { page := page, index := idx, format := img.ext, width := img.width,
                 height := img.height, base64 := img.image,
                 filepath := if img.saveOk = true then
                     some (imageFilename basename page idx img.suffix img.ext)
                   else none,
                 hash := hashFn img.image }
        else none), store) := by
  by_cases h1 : img.extractOk = false
  · rw [processImage_skip_extract hashFn false basename page idx img store h1]
    simp [h1]
  · replace h1 : img.extractOk = true := by simpa using h1
    by_cases h2 : img.width ≤ 100 ∧ img.height ≤ 100
    · rw [processImage_skip_small hashFn false basename page idx img store h1 h2]
      simp [h1, h2]
    · rw [processImage_emit hashFn false basename page idx img store h1 h2 (by simp)]
      simp [h1, h2]

/-- Counterexample to C7 as stated: when directory creation fails, the
degradation to pass-through mode is logged at ERROR level and no
WARNING-level record is emitted by the initializer — the claim's "logged as
a warning, not an error" is the wrong way around for the initialization
failure itself. -/
theorem init_failure_error_level :
    (init_image_hash_db ⟨false, true⟩).1 = false
    ∧ ((init_image_hash_db ⟨false, true⟩).2.map Prod.fst).contains LogLevel.error = true
    ∧ ((init_image_hash_db ⟨false, true⟩).2.map Prod.fst).contains LogLevel.warning = false :=
  ⟨rfl, by decide, by decide⟩

/-- C7 (amended): when storage initialization fails (directory creation or
database connection), the initializer returns normally with no connection —
the host process does not crash — and the component degrades to pass-through:
with no connection the extraction loop leaves the fingerprint store
untouched, behaves identically whatever the store holds (deduplication
disabled, every image treated as novel), and emits exactly the decodable
images not rejected by the size filter; the initialization failure itself is
logged as an ERROR, not a warning (the per-image "skipping deduplication"
message at extraction time is the warning-level record). -/
theorem init_failure_degrades_to_passthrough (env : InitEnv)
    (hfail : env.makedirsOk = false ∨ env.connectOk = false)
    (hashFn : Bytes → Nat) (basename : String) (page idx : Nat)
    (img : RawImage) (store store2 : List Nat) :
    (init_image_hash_db env).1 = false
    ∧ ((init_image_hash_db env).2.map Prod.fst).contains LogLevel.error = true
    ∧ ((init_image_hash_db env).2.map Prod.fst).contains LogLevel.warning = false
    ∧ (processImage hashFn false basename page idx img store).2 = store
    ∧ processImage hashFn false basename page idx img store =
        (( processImage hashFn false basename page idx img store2).1, store)
    ∧ ((processImage hashFn false basename page idx img store).1.isSome = true
        ↔ (img.extractOk = true ∧ ¬(img.width ≤ 100 ∧ img.height ≤ 100))) := by
  have hinit : (init_image_hash_db env).1 = false
      ∧ ((init_image_hash_db env).2.map Prod.fst).contains LogLevel.error = true
      ∧ ((init_image_hash_db env).2.map Prod.fst).contains LogLevel.warning = false := by
    rcases hfail with h | h
    · refine ⟨?_, ?_, ?_⟩ <;> simp [init_image_hash_db, h]
    · by_cases hm : env.makedirsOk = false
      · refine ⟨?_, ?_, ?_⟩ <;> simp [init_image_hash_db, hm]
      · replace hm : env.makedirsOk = true := by simpa using hm
        refine ⟨?_, ?_, ?_⟩ <;> simp [init_image_hash_db, hm, h]
  refine ⟨hinit.1, hinit.2.1, hinit.2.2, ?_, ?_, ?_⟩
  · rw [processImage_no_conn]
  · rw [processImage_no_conn, processImage_no_conn]
  · rw [processImage_no_conn]
    by_cases hc : img.extractOk = true ∧ ¬(img.width ≤ 100 ∧ img.height ≤ 100)
    · simp [hc]
    · simp [hc]

/-- Witness for the amended C7 at a concrete failing initialization and a
concrete image. -/
theorem init_failure_degrades_witness :
    ((InitEnv.mk false true).makedirsOk = false ∨ (InitEnv.mk false true).connectOk = false)
    ∧ ((init_image_hash_db ⟨false, true⟩).1 = false
      ∧ ((init_image_hash_db ⟨false, true⟩).2.map Prod.fst).contains LogLevel.error = true
      ∧ ((init_image_hash_db ⟨false, true⟩).2.map Prod.fst).contains LogLevel.warning = false
      ∧ (processImage wHash false "doc" 1 1 wImgA [21]).2 = [21]
      ∧ processImage wHash false "doc" 1 1 wImgA [21] =
          ((processImage wHash false "doc" 1 1 wImgA []).1, [21])
      ∧ ((processImage wHash false "doc" 1 1 wImgA [21]).1.isSome = true
          ↔ (wImgA.extractOk = true ∧ ¬(wImgA.width ≤ 100 ∧ wImgA.height ≤ 100)))) :=
  ⟨Or.inl rfl,
   init_failure_degrades_to_passthrough ⟨false, true⟩ (Or.inl rfl) wHash "doc" 1 1
     wImgA [21] []⟩

/-! ## Assistant cache (get_assistant_profile, get_or_create_assistant) -/

/-- One assistant profile as `assistant_profiles.get_assistant_profile`
returns it; tool dicts `{"type": "file_search"}` are modelled by their type
string. -/
structure ProfileConfig where
  name : String
  description : String
  model : String
  tools : List String
deriving Repr, DecidableEq

/-- `get_assistant_profile`: the three known profiles, or a raised
`ValueError` for any other name. -/
def get_assistant_profile (profile model : String) : Except String ProfileConfig :=
  if profile = "pdf_summarizer" then
    .ok { name := "PDF Summarizer Assistant",
          description := "Assistant that summarizes PDF documents including text and visuals.",
          model := model, tools := ["file_search"] }
  else if profile = "legal_analyzer" then
    .ok { name := "Legal Analyzer Assistant",
          description := "Assistant that analyzes legal documents and highlights key clauses.",
          model := model, tools := ["file_search"] }
  else if profile = "research_helper" then
    .ok { name := "Research Helper Assistant",
          description := "Assistant that helps summarize and organize research papers.",
          model := model, tools := ["file_search"] }
  else .error ("Unknown assistant profile: " ++ profile)

/-- The version key `{"model": ..., "tools": ...}` stored in the on-disk
cache file. -/
structure VersionKey where
  model : String
  tools : List String
deriving Repr, DecidableEq

/-- The parsed contents of `.cached_assistant_id_{profile}.json`. -/
structure CacheEntry where
  id : String
  version : VersionKey
deriving Repr, DecidableEq

/-- The external world of `get_or_create_assistant`: the per-profile disk
cache file (`none` = missing or unreadable), the result of
`assistants.retrieve` by id, and the result of `assistants.create`. -/
structure AgentEnv where
  diskCache : String → Option CacheEntry
  retrieveResult : String → Except String String
  createResult : Except String String

/-- `SummarizationAgent.get_or_create_assistant` on an instance whose
`_assistant` field holds `assistantState`: the profile is looked up FIRST
(raising for an unknown name), then the in-memory cache is returned if set —
whatever the profile argument — and only otherwise are the disk cache and
`assistants.create` consulted. Returns the assistant (modelled by its id) and
the new `_assistant` field. -/
def get_or_create_assistant (env : AgentEnv) (assistantState : Option String)
    (profile model : String) : Except String (String × Option String) :=
  match get_assistant_profile profile model with
  | .error e => .error e
  | .ok cfg =>
    let versionKey : VersionKey := { model := cfg.model, tools := cfg.tools }
    match assistantState with
    | some a => .ok (a, some a)
    | none =>
      let cached : Option String :=
        match env.diskCache profile with
        | some entry =>
          if entry.version = versionKey then
            match env.retrieveResult entry.id with
            | .ok a => some a
            | .error _ => none
          else none
        | none => none
      match cached with
      | some a => .ok (a, some a)
      | none =>
        match env.createResult with
        | .ok a => .ok (a, some a)
        | .error e => .error e

/-- A concrete external world for the cache witnesses. -/
def wAgentEnv : AgentEnv :=
  { diskCache := fun _ => none,
    retrieveResult := fun _ => .error "NotFoundError",
    createResult := .ok "asst-new" }

/-- Counterexample to C9 as stated: on an instance whose in-memory cache
already holds an assistant, a call with an UNKNOWN profile name does not
return that assistant — `get_assistant_profile` raises before the cache is
consulted. -/
theorem cached_assistant_unknown_profile_raises :
    get_or_create_assistant wAgentEnv (some "asst-0") "marketing_analyzer" "gpt-4o" =
      .error ("Unknown assistant profile: " ++ "marketing_analyzer")
    ∧ get_or_create_assistant wAgentEnv (some "asst-0") "marketing_analyzer" "gpt-4o" ≠
      .ok ("asst-0", some "asst-0") := by
  refine ⟨rfl, ?_⟩
  intro h
  rw [show get_or_create_assistant wAgentEnv (some "asst-0") "marketing_analyzer" "gpt-4o" =
    .error ("Unknown assistant profile: " ++ "marketing_analyzer") from rfl] at h
  exact Except.noConfusion h

/-- C9 (amended): once the instance's in-memory cache holds an assistant,
every subsequent call with any KNOWN profile name returns that same assistant
unchanged, whichever profile is asked for — the cache is keyed per instance,
not per profile, so a later call naming a different known profile does not
produce an assistant for that profile (an unknown name instead raises before
the cache is consulted). -/
theorem cached_assistant_ignores_profile (env : AgentEnv) (a profile model : String)
    (hknown : profile = "pdf_summarizer" ∨ profile = "legal_analyzer"
      ∨ profile = "research_helper") :
    get_or_create_assistant env (some a) profile model = .ok (a, some a) := by
  rcases hknown with h | h | h <;> subst h <;> rfl

/-- Witness for the amended C9: an instance that cached an assistant under
one profile returns it for a different known profile. -/
theorem cached_assistant_ignores_profile_witness :
    ("legal_analyzer" = "pdf_summarizer" ∨ "legal_analyzer" = "legal_analyzer"
      ∨ "legal_analyzer" = "research_helper")
    ∧ get_or_create_assistant wAgentEnv (some "asst-0") "legal_analyzer" "gpt-4o" =
        .ok ("asst-0", some "asst-0") :=
  ⟨Or.inr (Or.inl rfl),
   cached_assistant_ignores_profile wAgentEnv "asst-0" "legal_analyzer" "gpt-4o"
     (Or.inr (Or.inl rfl))⟩

/-! ## Report generation (ReportGenerator.generate_report)

The `summaries` argument is a list of `{"type": ..., "summary": artifact}`
items. `report_id` (a fresh uuid) and `generated_at` (the clock) are external
nondeterminism irrelevant to the claims and are left out of the modelled
report; the email metadata echo and the two summary collections are kept. -/

/-- One element of the `summaries` list. -/
structure SummaryItem where
  type : String
  summary : SummaryArtifact
deriving Repr, DecidableEq

/-- The email fields `generate_report` reads with `.get` defaults. -/
structure EmailData where
  subject : Option String
  sender : Option String
  date : Option String
deriving Repr, DecidableEq

/-- The report dict (minus uuid/clock): the email metadata echo, the email
summary, and the attachment summary entries (filename, summary). -/
structure GeneratedReport where
  subject : String
  sender : String
  date : String
  email_summary : String
  attachment_summaries : List (String × String)
deriving Repr, DecidableEq

/-- The return value of `generate_report`: the success dict wrapping the
report, or the `except`-branch dict `{"success": False, "error": ...}`. -/
inductive ReportResult
  | ok (r : GeneratedReport)
  | failed (error : String)
deriving Repr, DecidableEq

/-- The initial value of `email_summary`. -/
def emailSummaryFallback : String := "Email content could not be summarized."

/-- The `for item in summaries` loop, threading `email_summary` and
`attachment_summaries`: a successful email item overwrites the email summary;
a successful attachment item appends `(metadata.filename, summary)`; every
other item — in particular every artifact whose success flag is false — is
passed over without contributing an entry. A missing key on an accessed path
raises `KeyError`, which the surrounding `except` turns into the failure
dict. -/
def reportLoop : List SummaryItem → String → List (String × String) →
    Except String (String × List (String × String))
  | [], es, atts => .ok (es, atts)
  | item :: rest, es, atts =>
    if item.type = "email" ∧ item.summary.success = true then
      match item.summary.summary with
      | some s => reportLoop rest s atts
      | none => .error "KeyError: summary"
    else if item.type = "attachment" ∧ item.summary.success = true then
      match item.summary.metadata, item.summary.summary with
      | some md, some s => reportLoop rest es (atts ++ [(md.filename, s)])
      | _, _ => .error "KeyError: metadata or summary"
    else reportLoop rest es atts

/-- `ReportGenerator.generate_report`. -/
def generate_report (email_data : EmailData) (summaries : List SummaryItem) :
    ReportResult :=
  match reportLoop summaries emailSummaryFallback [] with
  | .ok (es, atts) =>
    .ok { subject := email_data.subject.getD "No subject",
          sender := email_data.sender.getD "Unknown sender",
          date := email_data.date.getD "Unknown date",
          email_summary := es, attachment_summaries := atts }
  | .error e => .failed e

/-- The attachment entries the loop actually produces: one per SUCCESSFUL
attachment artifact, in input order. -/
def successfulAttachmentEntries (summaries : List SummaryItem) :
    List (String × String) :=
  (summaries.filter fun it => decide (it.type = "attachment") && it.summary.success).map
    fun it => ((it.summary.metadata.map ArtifactMetadata.filename).getD "",
               it.summary.summary.getD "")

/-- The email summary the loop produces: the last successful email artifact's
summary, or the fallback placeholder. -/
def finalEmailSummary (summaries : List SummaryItem) : String :=
  summaries.foldl
    (fun acc it =>
      if it.type = "email" ∧ it.summary.success = true then
        it.summary.summary.getD acc
      else acc)
    emailSummaryFallback

theorem reportLoop_spec (summaries : List SummaryItem) :
    ∀ (es : String) (atts : List (String × String)),
      (∀ it ∈ summaries, it.summary.success = true →
        it.summary.summary.isSome = true ∧
        (it.type = "attachment" → it.summary.metadata.isSome = true)) →
      reportLoop summaries es atts =
        .ok (summaries.foldl
              (fun acc it =>
                if it.type = "email" ∧ it.summary.success = true then
                  it.summary.summary.getD acc
                else acc) es,
             atts ++ successfulAttachmentEntries summaries) := by
  induction summaries with
  | nil => intro es atts _; simp [reportLoop, successfulAttachmentEntries]
  | cons item rest ih =>
    intro es atts hwf
    have hwfItem := hwf item (List.mem_cons_self item rest)
    have hwfRest : ∀ it ∈ rest, it.summary.success = true →
        it.summary.summary.isSome = true ∧
        (it.type = "attachment" → it.summary.metadata.isSome = true) :=
      fun it hit => hwf it (List.mem_cons_of_mem item hit)
    by_cases hEmail : item.type = "email" ∧ item.summary.success = true
    · have hSome := (hwfItem hEmail.2).1
      rcases Option.isSome_iff_exists.mp hSome with ⟨s, hs⟩
      have hNotAtt : ¬(decide (item.type = "attachment") && item.summary.success) = true := by
        simp [hEmail.1]
      simp only [reportLoop, if_pos hEmail, hs]
      rw [ih s atts hwfRest]
      simp [successfulAttachmentEntries, List.filter_cons, hNotAtt,
        List.foldl_cons, if_pos hEmail, hs]
    · by_cases hAtt : item.type = "attachment" ∧ item.summary.success = true
      · have hSome := (hwfItem hAtt.2).1
        have hMd := (hwfItem hAtt.2).2 hAtt.1
        rcases Option.isSome_iff_exists.mp hSome with ⟨s, hs⟩
        rcases Option.isSome_iff_exists.mp hMd with ⟨md, hmd⟩
        have hIsAtt : (decide (item.type = "attachment") && item.summary.success) = true := by
          simp [hAtt.1, hAtt.2]
        simp only [reportLoop, if_neg hEmail, if_pos hAtt, hs, hmd]
        rw [ih es (atts ++ [(md.filename, s)]) hwfRest]
        simp [successfulAttachmentEntries, List.filter_cons, hIsAtt,
          List.foldl_cons, if_neg hEmail, hs, hmd, List.append_assoc]
      · have hNotAtt : ¬(decide (item.type = "attachment") && item.summary.success) = true := by
          intro hc
          simp only [Bool.and_eq_true, decide_eq_true_eq] at hc
          exact hAtt ⟨hc.1, hc.2⟩
        simp only [reportLoop, if_neg hEmail, if_neg hAtt]
        rw [ih es atts hwfRest]
        simp [successfulAttachmentEntries, List.filter_cons, hNotAtt,
          List.foldl_cons, if_neg hEmail]

/-- A successful email artifact item for the report examples. -/
def wEmailItem : SummaryItem :=
  ⟨"email", { success := true, summary := some "The email asks for a status update.",
              error := none, metadata := none }⟩

/-- A successful attachment artifact item. -/
def wOkAttachment : SummaryItem :=
  ⟨"attachment", successArtifact "Quarterly figures improved." "a.pdf" []⟩

/-- A FAILED attachment artifact item (success flag false). -/
def wFailedAttachment : SummaryItem :=
  ⟨"attachment",
   runFailedArtifact TerminalStatus.failed "server_error"⟩

/-- Counterexample to C1 as stated: with one email artifact and two
attachment artifacts (one successful, one failed) the report carries exactly
ONE attachment entry — the failed attachment artifact is silently dropped,
so the report does not contain one entry per input artifact. -/
theorem report_drops_failed_attachment :
    generate_report ⟨some "Q3 report", some "cfo@example.com", some "2024-05-01"⟩
        [wEmailItem, wOkAttachment, wFailedAttachment] =
      .ok { subject := "Q3 report", sender := "cfo@example.com", date := "2024-05-01",
            email_summary := "The email asks for a status update.",
            attachment_summaries := [("a.pdf", "Quarterly figures improved.")] }
    ∧ (([wEmailItem, wOkAttachment, wFailedAttachment] : List SummaryItem).filter
        (fun it => decide (it.type = "attachment"))).length = 2
    ∧ wFailedAttachment.summary.success = false :=
  ⟨by decide, by decide, rfl⟩

/-- C1 (amended): the report preserves the input ordering of attachment
artifacts but keeps only the SUCCESSFUL ones — it contains exactly one entry
per successful attachment artifact, in input order, and every artifact whose
success flag is false is omitted from the report (a failed email artifact is
represented only by the fallback placeholder email summary); the report never
fails outright on well-formed artifacts. -/
theorem report_keeps_successful_attachments_in_order (email_data : EmailData)
    (summaries : List SummaryItem)
    (hwf : ∀ it ∈ summaries, it.summary.success = true →
      it.summary.summary.isSome = true ∧
      (it.type = "attachment" → it.summary.metadata.isSome = true)) :
    generate_report email_data summaries =
      .ok { subject := email_data.subject.getD "No subject",
            sender := email_data.sender.getD "Unknown sender",
            date := email_data.date.getD "Unknown date",
            email_summary := finalEmailSummary summaries,
            attachment_summaries := successfulAttachmentEntries summaries } := by
  unfold generate_report
  rw [reportLoop_spec summaries emailSummaryFallback [] hwf]
  simp [finalEmailSummary]

/-- Witness for the amended C1 at the concrete mixed input. -/
theorem report_keeps_successful_witness :
    (∀ it ∈ ([wEmailItem, wOkAttachment, wFailedAttachment] : List SummaryItem),
      it.summary.success = true →
      it.summary.summary.isSome = true ∧
      (it.type = "attachment" → it.summary.metadata.isSome = true))
    ∧ generate_report ⟨some "Q3 report", some "cfo@example.com", some "2024-05-01"⟩
        [wEmailItem, wOkAttachment, wFailedAttachment] =
      .ok { subject := "Q3 report", sender := "cfo@example.com", date := "2024-05-01",
            email_summary :=
              finalEmailSummary [wEmailItem, wOkAttachment, wFailedAttachment],
            attachment_summaries :=
              successfulAttachmentEntries [wEmailItem, wOkAttachment, wFailedAttachment] } :=
  ⟨by decide,
   report_keeps_successful_attachments_in_order
     ⟨some "Q3 report", some "cfo@example.com", some "2024-05-01"⟩
     [wEmailItem, wOkAttachment, wFailedAttachment] (by decide)⟩

end SummarizationPipeline
